import Mathlib

/-!
# Shallow embedding of `lighthouse_network::service` (service/mod.rs)

This file embeds the parts of the Network façade of the lighthouse
networking crate that the verified claims are about: gossip topic
subscription, the gossip retry cache as configured by `Network::new`,
the metadata-mutation sequence, RPC event injection, request sending,
and the boot-node multiaddr filtering of `Network::start`.

Payloads that the service treats as opaque (block roots, slots, peer
ids, encoded message bytes) are represented by `Nat`.
-/

namespace LighthouseNetwork

/-- A peer id: opaque, comparable. -/
abbrev PeerId := Nat

/-- The kind of a gossip topic (`crate::types::GossipKind`), as enumerated
in the data model: beacon-block, aggregate-and-proof, attestation(subnet),
sync-committee(subnet), contribution-and-proof, exits, slashings,
bls-change, blob/data-column sidecars and light-client topics. -/
inductive GossipKind where
  | beaconBlock
  | beaconAggregateAndProof
  | attestation (subnet : Nat)
  | syncCommitteeMessage (subnet : Nat)
  | signedContributionAndProof
  | voluntaryExit
  | proposerSlashing
  | attesterSlashing
  | blsToExecutionChange
  | blobSidecar (subnet : Nat)
  | dataColumnSidecar (subnet : Nat)
  | lightClientFinalityUpdate
  | lightClientOptimisticUpdate
deriving DecidableEq, Repr

/-- Gossip encoding (`GossipEncoding`); only SSZ-snappy exists. -/
inductive GossipEncoding where
  | sszSnappy
deriving DecidableEq, Repr

/-- A gossip topic (`GossipTopic`): kind, encoding and 4-byte fork digest
(the digest is represented as a `Nat`). -/
structure GossipTopic where
  kind : GossipKind
  encoding : GossipEncoding
  fork_digest : Nat
deriving DecidableEq, Repr

/-! ## Subscribe / unsubscribe (`Network::subscribe`, `Network::unsubscribe`)

The underlying gossipsub layer call is abstracted by its result: for
`gossipsub.subscribe` an `Except Unit Bool` (`Err` / `Ok(was_new)`),
likewise for `gossipsub.unsubscribe`.  The façade's state that the
claims are about is `network_globals.gossipsub_subscriptions`, a set of
gossip topics. -/

/-- `Network::subscribe`: inserts the topic into
`network_globals.gossipsub_subscriptions`, then calls
`gossipsub.subscribe`; returns `false` on `Err` and `true` on `Ok(_)`.
The first component of the result is the updated subscription set, the
second the returned boolean. -/
def Network.subscribe (gsResult : Except Unit Bool) (subs : Finset GossipTopic)
    (topic : GossipTopic) : Finset GossipTopic × Bool :=
  let subs := insert topic subs
  match gsResult with
  | .error _ => (subs, false)
  | .ok _ => (subs, true)

/-- `Network::unsubscribe`: removes the topic from
`network_globals.gossipsub_subscriptions`, then calls
`gossipsub.unsubscribe`; returns `false` on `Err` and the layer's
boolean `v` on `Ok(v)`. -/
def Network.unsubscribe (gsResult : Except Unit Bool) (subs : Finset GossipTopic)
    (topic : GossipTopic) : Finset GossipTopic × Bool :=
  let subs := subs.erase topic
  match gsResult with
  | .error _ => (subs, false)
  | .ok v => (subs, v)

/-- The observable actions of `Network::subscribe` / `Network::unsubscribe`
in program order: the write to the subscription set and the call into the
gossipsub layer. -/
inductive SubAction where
  | setInsert
  | setRemove
  | gsSubscribe
  | gsUnsubscribe
deriving DecidableEq, Repr

/-- Program-order action trace of `Network::subscribe`: the set insert
(line "update the network globals") happens before the
`gossipsub.subscribe` call. -/
def subscribeActions : List SubAction := [.setInsert, .gsSubscribe]

/-- Program-order action trace of `Network::unsubscribe`. -/
def unsubscribeActions : List SubAction := [.setRemove, .gsUnsubscribe]

/-! ## Metadata mutation (`Network::update_metadata_bitfields`) -/

/-- Local metadata (`MetaData`): sequence number and the two subnet
bitfields (bitfields represented as `Nat`). -/
structure MetaData where
  seqNumber : Nat
  attnets : Nat
  syncnets : Nat
deriving DecidableEq, Repr

/-- The value-level effect of `update_metadata_bitfields`: bump the
sequence number, overwrite the bitfields from the local ENR, and return
(new in-memory metadata, sequence number passed to
`eth2_rpc.update_seq_number`, metadata passed to
`save_metadata_to_disk`). -/
def update_metadata_bitfields (localAttnets localSyncnets : Nat) (md : MetaData) :
    MetaData × Nat × MetaData :=
  let md' : MetaData :=
    { seqNumber := md.seqNumber + 1
      attnets := localAttnets
      syncnets := localSyncnets }
  (md', md'.seqNumber, md')

/-- The observable steps of `update_metadata_bitfields` in program order. -/
inductive MetaAction where
  | bumpSeqNumber
  | setAttnets
  | setSyncnets
  | rpcUpdateSeqNumber
  | saveMetadataToDisk
deriving DecidableEq, Repr

/-- Program-order trace of `update_metadata_bitfields`: under the write
lock the sequence number is bumped and the bitfields written; after
dropping the lock the RPC layer's sequence number is updated
(`eth2_rpc.update_seq_number`) and only then is the metadata saved to
disk (`utils::save_metadata_to_disk`). -/
def update_metadata_bitfields_trace : List MetaAction :=
  [.bumpSeqNumber, .setAttnets, .setSyncnets, .rpcUpdateSeqNumber, .saveMetadataToDisk]

end LighthouseNetwork

namespace LighthouseNetwork

/-! ## Gossip retry cache construction (`Network::new`)

Durations are modelled in milliseconds so that "half an epoch" is exact
even when the epoch length in seconds is odd (`std::time::Duration` has
sub-second precision; the code's `half_epoch` is built with *integer
division of seconds*). -/

/-- `Duration::from_secs(seconds_per_slot)` in milliseconds. -/
def slot_duration_ms (seconds_per_slot : Nat) : Nat := 1000 * seconds_per_slot

/-- The code's `half_epoch`:
`Duration::from_secs(seconds_per_slot * slots_per_epoch / 2)` — integer
division of the epoch length in seconds by 2 — in milliseconds. -/
def half_epoch_ms (seconds_per_slot slots_per_epoch : Nat) : Nat :=
  1000 * (seconds_per_slot * slots_per_epoch / 2)

/-- The per-kind timeouts handed to `GossipCache::builder()`; a field is
`none` when the corresponding builder method is not called
(`GossipCacheBuilder` defaults). Milliseconds. -/
structure GossipCacheBuilder where
  beacon_block : Option Nat := none
  aggregates : Option Nat := none
  attestation : Option Nat := none
  voluntary_exit : Option Nat := none
  proposer_slashing : Option Nat := none
  attester_slashing : Option Nat := none
  signed_contribution_and_proof : Option Nat := none
  sync_committee_message : Option Nat := none
  bls_to_execution_change : Option Nat := none
deriving DecidableEq, Repr

/-- The builder call chain of `Network::new`:
`.beacon_block_timeout(slot_duration)`, `.aggregates_timeout(half_epoch)`,
`.attestation_timeout(half_epoch)`, `.voluntary_exit_timeout(half_epoch * 2)`,
`.proposer_slashing_timeout(half_epoch * 2)`,
`.attester_slashing_timeout(half_epoch * 2)`,
`.bls_to_execution_change_timeout(half_epoch * 2)`; the
contribution-and-proof and sync-committee-message timeouts are left
unset in the source ("Do not retry"). -/
def network_gossip_cache_builder (seconds_per_slot slots_per_epoch : Nat) :
    GossipCacheBuilder :=
  let slot_duration := slot_duration_ms seconds_per_slot
  let half_epoch := half_epoch_ms seconds_per_slot slots_per_epoch
  { beacon_block := some slot_duration
    aggregates := some half_epoch
    attestation := some half_epoch
    voluntary_exit := some (half_epoch * 2)
    proposer_slashing := some (half_epoch * 2)
    attester_slashing := some (half_epoch * 2)
    bls_to_execution_change := some (half_epoch * 2) }

/-- The TTL the configured cache associates to a topic kind: the builder
field of that kind, `none` for kinds with no configured timeout (blob,
data-column and light-client kinds are never given one by
`Network::new`). -/
def GossipCacheBuilder.timeout_for_kind (b : GossipCacheBuilder) :
    GossipKind → Option Nat
  | .beaconBlock => b.beacon_block
  | .beaconAggregateAndProof => b.aggregates
  | .attestation _ => b.attestation
  | .voluntaryExit => b.voluntary_exit
  | .proposerSlashing => b.proposer_slashing
  | .attesterSlashing => b.attester_slashing
  | .signedContributionAndProof => b.signed_contribution_and_proof
  | .syncCommitteeMessage _ => b.sync_committee_message
  | .blsToExecutionChange => b.bls_to_execution_change
  | .blobSidecar _ => none
  | .dataColumnSidecar _ => none
  | .lightClientFinalityUpdate => none
  | .lightClientOptimisticUpdate => none

/-- The TTL table as the specification words it (for comparison with the
code's): beacon-block = 1 slot, aggregates and attestations = half an
epoch, voluntary-exit / proposer-slashing / attester-slashing /
bls-to-execution-change = 1 epoch, nothing for sync-committee
contributions and messages (or any other kind). Milliseconds. -/
def spec_gossip_cache_ttl (seconds_per_slot slots_per_epoch : Nat) :
    GossipKind → Option Nat :=
  let epoch_ms := 1000 * seconds_per_slot * slots_per_epoch
  fun k => match k with
  | .beaconBlock => some (1000 * seconds_per_slot)
  | .beaconAggregateAndProof => some (epoch_ms / 2)
  | .attestation _ => some (epoch_ms / 2)
  | .voluntaryExit => some epoch_ms
  | .proposerSlashing => some epoch_ms
  | .attesterSlashing => some epoch_ms
  | .blsToExecutionChange => some epoch_ms
  | _ => none

/-! ## The gossip retry cache and `Network::publish` -/

/-- The gossip retry cache: its per-kind TTL configuration and its queue
of (topic, encoded payload) entries. -/
structure GossipCache where
  builder : GossipCacheBuilder
  entries : List (GossipTopic × Nat)
deriving DecidableEq, Repr

/-- Modelled from the spec: `GossipCache::insert` (gossip_cache.rs is not
among the given sources) "enqueues only if the topic-kind has a
configured TTL; else drops". -/
def GossipCache.insert (c : GossipCache) (topic : GossipTopic) (data : Nat) :
    GossipCache :=
  match c.builder.timeout_for_kind topic.kind with
  | some _ => { c with entries := c.entries ++ [(topic, data)] }
  | none => c

/-- Outcome of a `gossipsub.publish` call as `Network::publish` matches
on it. -/
inductive PublishOutcome where
  | published
  | duplicate
  | insufficientPeers
  | otherError
deriving DecidableEq, Repr

/-- A pubsub message as `Network::publish` consumes it: its applicable
topics at the current fork digest (`message.topics(...)`, whose
computation lives outside this source file) and its encoded payload
(`message.encode(...)`). -/
structure PubsubMessageModel where
  topics : List GossipTopic
  payload : Nat
deriving DecidableEq, Repr

/-- The inner loop body of `Network::publish` for one topic of one
message: on `Ok` nothing; on `Err(Duplicate)` a debug log; on other
errors a warning and a metric; and additionally, exactly when the error
is `InsufficientPeers`, `gossip_cache.insert(topic, message_data)`. -/
def publish_topic_step (gsPublish : GossipTopic → PublishOutcome)
    (payload : Nat) (c : GossipCache) (topic : GossipTopic) : GossipCache :=
  match gsPublish topic with
  | .published => c
  | .duplicate => c
  | .otherError => c
  | .insufficientPeers => c.insert topic payload

/-- `Network::publish` over one message: iterate its applicable topics. -/
def publish_message (gsPublish : GossipTopic → PublishOutcome)
    (c : GossipCache) (m : PubsubMessageModel) : GossipCache :=
  m.topics.foldl (publish_topic_step gsPublish m.payload) c

end LighthouseNetwork

namespace LighthouseNetwork

/-! ## The RPC adapter (`Network::inject_rpc_event` and friends) -/

/-- `api_types::RequestId`: tagged union of host-originated
(`Application`) and behaviour-originated (`Internal`) request ids. The
application id (`AppRequestId`) is opaque, modelled as `Nat`. -/
inductive RequestId where
  | application (id : Nat)
  | internal
deriving DecidableEq, Repr

/-- The RPC protocols named in this source file. -/
inductive Protocol where
  | ping
  | metaData
  | goodbye
  | status
  | blocksByRange
  | blocksByRoot
  | blobsByRange
  | blobsByRoot
  | dataColumnsByRoot
  | dataColumnsByRange
  | lightClientBootstrap
  | lightClientOptimisticUpdate
  | lightClientFinalityUpdate
deriving DecidableEq, Repr

/-- The `RPCError` variants this source file constructs or matches on,
plus an opaque variant for all others. -/
inductive RPCError where
  | disconnected
  | invalidData (msg : String)
  | other (code : Nat)
deriving DecidableEq, Repr

/-- `ConnectionDirection` as passed to `PeerManager::handle_rpc_error`. -/
inductive ConnectionDirection where
  | incoming
  | outgoing
deriving DecidableEq, Repr

/-- `HandlerErr`: an error from the RPC handler. `Inbound` errors carry
the inbound substream id; `Outbound` errors carry the tagged
`RequestId` of the request we sent. -/
inductive HandlerErr where
  | inbound (id : Nat) (proto : Protocol) (error : RPCError)
  | outbound (id : RequestId) (proto : Protocol) (error : RPCError)
deriving DecidableEq, Repr

/-- `RequestType`: an inbound/outbound RPC request body. Payload fields
the service never inspects are `Nat`s; `blocksByRange` keeps its `step`
field, which the service inspects. -/
inductive RequestType where
  | ping (data : Nat)
  | metaData (version : Nat)
  | goodbye (reason : Nat)
  | status (msg : Nat)
  | blocksByRange (startSlot count step : Nat)
  | blocksByRoot (roots : List Nat)
  | blobsByRange (startSlot count : Nat)
  | blobsByRoot (roots : List Nat)
  | dataColumnsByRoot (roots : List Nat)
  | dataColumnsByRange (startSlot count : Nat)
  | lightClientBootstrap (root : Nat)
  | lightClientOptimisticUpdate
  | lightClientFinalityUpdate
deriving DecidableEq, Repr

/-- An inbound request as delivered in `RPCReceived::Request`: the rpc
layer's inbound request id, the substream id, and the request body. -/
structure InboundRequest where
  id : Nat
  substreamId : Nat
  reqType : RequestType
deriving DecidableEq, Repr

/-- `RpcSuccessResponse`: a single successful response chunk. -/
inductive RpcSuccessResponse where
  | pong (data : Nat)
  | metaData (md : MetaData)
  | status (msg : Nat)
  | blocksByRange (block : Nat)
  | blobsByRange (blob : Nat)
  | blocksByRoot (block : Nat)
  | blobsByRoot (blob : Nat)
  | dataColumnsByRoot (col : Nat)
  | dataColumnsByRange (col : Nat)
  | lightClientBootstrap (b : Nat)
  | lightClientOptimisticUpdate (u : Nat)
  | lightClientFinalityUpdate (u : Nat)
deriving DecidableEq, Repr

/-- `ResponseTermination`: which streamed protocol ended. -/
inductive ResponseTermination where
  | blocksByRange
  | blocksByRoot
  | blobsByRange
  | blobsByRoot
  | dataColumnsByRoot
  | dataColumnsByRange
deriving DecidableEq, Repr

/-- `RPCReceived`: a successfully received RPC item. -/
inductive RPCReceived where
  | request (req : InboundRequest)
  | response (id : RequestId) (resp : RpcSuccessResponse)
  | endOfStream (id : RequestId) (term : ResponseTermination)
deriving DecidableEq, Repr

/-- Decidable equality for `Except` values, needed to evaluate the
model on concrete RPC events. -/
def exceptDecEq {ε α : Type} [DecidableEq ε] [DecidableEq α] :
    (a b : Except ε α) → Decidable (a = b)
  | .error e, .error f =>
      if h : e = f then .isTrue (congrArg Except.error h)
      else .isFalse (fun hh => h (Except.error.inj hh))
  | .ok x, .ok y =>
      if h : x = y then .isTrue (congrArg Except.ok h)
      else .isFalse (fun hh => h (Except.ok.inj hh))
  | .error _, .ok _ => .isFalse (fun hh => Except.noConfusion hh)
  | .ok _, .error _ => .isFalse (fun hh => Except.noConfusion hh)

instance {ε α : Type} [DecidableEq ε] [DecidableEq α] :
    DecidableEq (Except ε α) := exceptDecEq

/-- `RPCMessage`: the event injected into `inject_rpc_event`. -/
structure RPCMessage where
  peer_id : PeerId
  conn_id : Nat
  message : Except HandlerErr RPCReceived
deriving DecidableEq, Repr

/-- `api_types::Response`: a response surfaced to the application;
streamed kinds carry `Option` payloads whose `none` is the
end-of-stream marker. -/
inductive Response where
  | status (msg : Nat)
  | blocksByRange (block : Option Nat)
  | blobsByRange (blob : Option Nat)
  | blocksByRoot (block : Option Nat)
  | blobsByRoot (blob : Option Nat)
  | dataColumnsByRoot (col : Option Nat)
  | dataColumnsByRange (col : Option Nat)
  | lightClientBootstrap (b : Nat)
  | lightClientOptimisticUpdate (u : Nat)
  | lightClientFinalityUpdate (u : Nat)
deriving DecidableEq, Repr

/-- The public `NetworkEvent` variants the RPC adapter can produce. -/
inductive NetworkEvent where
  | rpcFailed (id : Nat) (peer_id : PeerId) (error : RPCError)
  | requestReceived (peer_id : PeerId) (id : Nat × Nat) (request : InboundRequest)
  | responseReceived (peer_id : PeerId) (id : Nat) (response : Response)
deriving DecidableEq, Repr

/-- The side effects of the RPC adapter on the peer manager and the RPC
sub-behaviour. -/
inductive Effect where
  | pmHandleRpcError (peer_id : PeerId) (proto : Protocol) (error : RPCError)
      (dir : ConnectionDirection)
  | pmPingRequest (peer_id : PeerId) (data : Nat)
  | pmPongResponse (peer_id : PeerId) (data : Nat)
  | pmMetaDataResponse (peer_id : PeerId) (md : MetaData)
  | pmPeerStatusd (peer_id : PeerId)
  | rpcSendResponse (peer_id : PeerId) (id : Nat × Nat) (requestId : Nat)
      (md : MetaData)
  | rpcSendRequest (peer_id : PeerId) (id : RequestId) (req : RequestType)
deriving DecidableEq, Repr

/-- `Network::publish` over a list of messages. The second component is
the list of public `NetworkEvent`s the call emits: the function returns
`()` in the source and has no emission path (public events are produced
only by `poll_network`), so it is always empty. -/
def Network.publish (gsPublish : GossipTopic → PublishOutcome)
    (c : GossipCache) (msgs : List PubsubMessageModel) :
    GossipCache × List NetworkEvent :=
  (msgs.foldl (publish_message gsPublish) c, [])

/-- `Network::build_response`: surface a `ResponseReceived` exactly for
`Application` ids; `Internal` ids are consumed. -/
def Network.build_response (id : RequestId) (peer_id : PeerId)
    (response : Response) : Option NetworkEvent :=
  match id with
  | .application i => some (.responseReceived peer_id i response)
  | .internal => none

/-- Whether an RPC message is an inbound handler error
(`Err(HandlerErr::Inbound { .. })`). -/
def isInboundHandlerErr : Except HandlerErr RPCReceived → Bool
  | .error (.inbound _ _ _) => true
  | _ => false

/-- Whether an RPC message is an inbound request
(`Ok(RPCReceived::Request(..))`). -/
def isRequestMsg : Except HandlerErr RPCReceived → Bool
  | .ok (.request _) => true
  | _ => false

/-- The tagged `RequestId` an RPC message carries, when it carries one
(outbound errors, responses and end-of-stream markers do; inbound
requests and inbound errors do not). -/
def messageRequestId : Except HandlerErr RPCReceived → Option RequestId
  | .error (.outbound id _ _) => some id
  | .ok (.response id _) => some id
  | .ok (.endOfStream id _) => some id
  | _ => none

/-- `Network::inject_rpc_event`, with the peer manager's
`is_connected(&peer_id)` answer abstracted as `isConnected` and the
node's current local metadata (read for MetaData responses) as
`localMetadata`. Returns the public event (if any) together with the
side effects performed. -/
def Network.inject_rpc_event (isConnected : Bool) (localMetadata : MetaData)
    (event : RPCMessage) : Option NetworkEvent × List Effect :=
  let peer_id := event.peer_id
  -- Do not permit Inbound events from peers that are being disconnected
  -- or RPC requests, but allow `RpcFailed` and `HandlerErr::Outbound`.
  if !isConnected
      && (isInboundHandlerErr event.message || isRequestMsg event.message) then
    (none, [])
  else
    let connection_id := event.conn_id
    match event.message with
    | .error (.inbound _ proto error) =>
        (none, [.pmHandleRpcError peer_id proto error .incoming])
    | .error (.outbound id proto error) =>
        let effects := [Effect.pmHandleRpcError peer_id proto error .outgoing]
        match id with
        | .application i => (some (.rpcFailed i peer_id error), effects)
        | .internal => (none, effects)
    | .ok (.request req) =>
        match req.reqType with
        | .ping data => (none, [.pmPingRequest peer_id data])
        | .metaData _ =>
            (none, [.rpcSendResponse peer_id (connection_id, req.substreamId)
              req.id localMetadata])
        | .goodbye _ => (none, [])
        | .status _ =>
            (some (.requestReceived peer_id (connection_id, req.substreamId) req),
              [.pmPeerStatusd peer_id])
        | .blocksByRange _ _ step =>
            if step = 0 then
              (none, [.pmHandleRpcError peer_id .blocksByRange
                (.invalidData "Blocks by range with 0 step parameter") .incoming])
            else
              (some (.requestReceived peer_id (connection_id, req.substreamId) req),
                [])
        | .blocksByRoot _ =>
            (some (.requestReceived peer_id (connection_id, req.substreamId) req), [])
        | .blobsByRange _ _ =>
            (some (.requestReceived peer_id (connection_id, req.substreamId) req), [])
        | .blobsByRoot _ =>
            (some (.requestReceived peer_id (connection_id, req.substreamId) req), [])
        | .dataColumnsByRoot _ =>
            (some (.requestReceived peer_id (connection_id, req.substreamId) req), [])
        | .dataColumnsByRange _ _ =>
            (some (.requestReceived peer_id (connection_id, req.substreamId) req), [])
        | .lightClientBootstrap _ =>
            (some (.requestReceived peer_id (connection_id, req.substreamId) req), [])
        | .lightClientOptimisticUpdate =>
            (some (.requestReceived peer_id (connection_id, req.substreamId) req), [])
        | .lightClientFinalityUpdate =>
            (some (.requestReceived peer_id (connection_id, req.substreamId) req), [])
    | .ok (.response id resp) =>
        match resp with
        | .pong data => (none, [.pmPongResponse peer_id data])
        | .metaData md => (none, [.pmMetaDataResponse peer_id md])
        | .status msg =>
            (Network.build_response id peer_id (.status msg),
              [.pmPeerStatusd peer_id])
        | .blocksByRange b =>
            (Network.build_response id peer_id (.blocksByRange (some b)), [])
        | .blobsByRange b =>
            (Network.build_response id peer_id (.blobsByRange (some b)), [])
        | .blocksByRoot b =>
            (Network.build_response id peer_id (.blocksByRoot (some b)), [])
        | .blobsByRoot b =>
            (Network.build_response id peer_id (.blobsByRoot (some b)), [])
        | .dataColumnsByRoot c =>
            (Network.build_response id peer_id (.dataColumnsByRoot (some c)), [])
        | .dataColumnsByRange c =>
            (Network.build_response id peer_id (.dataColumnsByRange (some c)), [])
        | .lightClientBootstrap b =>
            (Network.build_response id peer_id (.lightClientBootstrap b), [])
        | .lightClientOptimisticUpdate u =>
            (Network.build_response id peer_id (.lightClientOptimisticUpdate u), [])
        | .lightClientFinalityUpdate u =>
            (Network.build_response id peer_id (.lightClientFinalityUpdate u), [])
    | .ok (.endOfStream id term) =>
        let response : Response :=
          match term with
          | .blocksByRange => .blocksByRange none
          | .blocksByRoot => .blocksByRoot none
          | .blobsByRange => .blobsByRange none
          | .blobsByRoot => .blobsByRoot none
          | .dataColumnsByRoot => .dataColumnsByRoot none
          | .dataColumnsByRange => .dataColumnsByRange none
        (Network.build_response id peer_id response, [])

/-- `Network::send_request`, with the swarm's `is_connected(&peer_id)`
answer abstracted as `isConnected`. On a disconnected peer it returns
`Err((request_id, RPCError::Disconnected))` without any effect; on a
connected peer it forwards the request to the RPC layer tagged
`RequestId::Application(request_id)` and returns `Ok(())`, the effect
list recording the forward. -/
def Network.send_request (isConnected : Bool) (peer_id : PeerId)
    (request_id : Nat) (request : RequestType) :
    Except (Nat × RPCError) (List Effect) :=
  if !isConnected then
    .error (request_id, .disconnected)
  else
    .ok [.rpcSendRequest peer_id (.application request_id) request]

/-! ## Boot-node multiaddr filtering in `Network::start` -/

/-- The multiaddr protocol components `Network::start` distinguishes. -/
inductive MProtocol where
  | ip4 (addr : Nat)
  | ip6 (addr : Nat)
  | tcp (port : Nat)
  | udp (port : Nat)
  | quicV1
  | p2p (peer : Nat)
deriving DecidableEq, Repr

/-- The UDP-filtering step of the boot-ENR dialing loop in
`Network::start`: it collects the multiaddr's components into a vector
and matches on `components[1]`. Indexing `components[1]` panics when
the vector has fewer than two elements, modelled by `none`; otherwise
`some skip`, where `skip` says whether the multiaddr is skipped
(`continue`) because its second component is UDP. -/
def bootnode_udp_filter (components : List MProtocol) : Option Bool :=
  match components.get? 1 with
  | none => none
  | some (.udp _) => some true
  | some _ => some false

end LighthouseNetwork

namespace LighthouseNetwork

/-! ## Helper lemmas -/

/-- Whether an effect is a `handle_rpc_error` call carrying an
`InvalidData` error. -/
def isInvalidDataRpcErrorEffect : Effect → Bool
  | .pmHandleRpcError _ _ (.invalidData _) _ => true
  | _ => false

/-- Folding `Network::publish`'s per-topic step over a topic list when
every `gossipsub.publish` call reports `InsufficientPeers`: the TTL
configuration is untouched and the entry queue is extended by exactly
one entry per topic whose kind has a configured TTL, in order. -/
theorem publish_topics_fold (gs : GossipTopic → PublishOutcome)
    (h : ∀ t, gs t = PublishOutcome.insufficientPeers) (payload : Nat) :
    ∀ (l : List GossipTopic) (c : GossipCache),
    (l.foldl (publish_topic_step gs payload) c).builder = c.builder ∧
    (l.foldl (publish_topic_step gs payload) c).entries = c.entries ++
      (l.filter (fun t => (c.builder.timeout_for_kind t.kind).isSome)).map
        (fun t => (t, payload)) := by
  intro l
  induction l with
  | nil => intro c; simp
  | cons t l ih =>
      intro c
      have hstep : publish_topic_step gs payload c t = c.insert t payload := by
        simp [publish_topic_step, h t]
      rcases hcase : c.builder.timeout_for_kind t.kind with _ | v
      · have hins : c.insert t payload = c := by
          simp [GossipCache.insert, hcase]
        simp only [List.foldl_cons, hstep, hins]
        have := ih c
        simp [List.filter_cons, hcase, this.1, this.2]
      · have hins : c.insert t payload =
            { c with entries := c.entries ++ [(t, payload)] } := by
          simp [GossipCache.insert, hcase]
        simp only [List.foldl_cons, hstep, hins]
        have := ih { c with entries := c.entries ++ [(t, payload)] }
        simp [List.filter_cons, hcase, this.1, this.2]

/-- Folding `publish_message` over a message list when every publish
reports `InsufficientPeers`. -/
theorem publish_messages_fold (gs : GossipTopic → PublishOutcome)
    (h : ∀ t, gs t = PublishOutcome.insufficientPeers) :
    ∀ (msgs : List PubsubMessageModel) (c : GossipCache),
    (msgs.foldl (publish_message gs) c).builder = c.builder ∧
    (msgs.foldl (publish_message gs) c).entries = c.entries ++
      msgs.flatMap (fun m =>
        (m.topics.filter (fun t => (c.builder.timeout_for_kind t.kind).isSome)).map
          (fun t => (t, m.payload))) := by
  intro msgs
  induction msgs with
  | nil => intro c; simp
  | cons m msgs ih =>
      intro c
      have hm := publish_topics_fold gs h m.payload m.topics c
      have hb : (publish_message gs c m).builder = c.builder := hm.1
      have he : (publish_message gs c m).entries = c.entries ++
          (m.topics.filter (fun t => (c.builder.timeout_for_kind t.kind).isSome)).map
            (fun t => (t, m.payload)) := hm.2
      have ihm := ih (publish_message gs c m)
      constructor
      · rw [List.foldl_cons, ihm.1, hb]
      · rw [List.foldl_cons, ihm.2, he]
        simp only [hb]
        simp [List.append_assoc]

end LighthouseNetwork

namespace LighthouseNetwork

/-! ## Claim theorems -/

/-- C1 (counterexample): in `update_metadata_bitfields` the on-disk
metadata write does **not** precede informing the RPC layer of the new
sequence number: in the program-order trace, `save_metadata_to_disk`
comes after `eth2_rpc.update_seq_number`, refuting the claim that both
the sequence bump and the disk write happen before the RPC layer is
informed. -/
theorem C1_counterexample :
    ¬ (update_metadata_bitfields_trace.indexOf MetaAction.saveMetadataToDisk
        < update_metadata_bitfields_trace.indexOf MetaAction.rpcUpdateSeqNumber) := by
  decide

/-- C1 (amended): in every metadata mutation, the sequence-number bump
happens before the RPC layer is informed, but the on-disk write happens
only **after** the RPC layer is informed; the sequence number given to
the RPC layer is the bumped one (`seq + 1`) and equals the sequence
number of the metadata subsequently written to disk. -/
theorem C1_metadata_mutation_order :
    (update_metadata_bitfields_trace.indexOf MetaAction.bumpSeqNumber
        < update_metadata_bitfields_trace.indexOf MetaAction.rpcUpdateSeqNumber
      ∧ update_metadata_bitfields_trace.indexOf MetaAction.rpcUpdateSeqNumber
        < update_metadata_bitfields_trace.indexOf MetaAction.saveMetadataToDisk)
    ∧ ∀ (localAttnets localSyncnets : Nat) (md : MetaData),
        (update_metadata_bitfields localAttnets localSyncnets md).2.1
            = md.seqNumber + 1
        ∧ (update_metadata_bitfields localAttnets localSyncnets md).2.1
            = (update_metadata_bitfields localAttnets localSyncnets md).2.2.seqNumber :=
  ⟨by decide, fun _ _ _ => ⟨rfl, rfl⟩⟩

/-- C2 (counterexample): `subscribe(t)` followed by `unsubscribe(t)`
does **not** return the subscription set to its prior value when `t`
was already subscribed: starting from `{t}`, the round trip ends at
`∅`. -/
theorem C2_counterexample :
    (Network.unsubscribe (.ok true)
        (Network.subscribe (.ok true)
          {(⟨.beaconBlock, .sszSnappy, 0⟩ : GossipTopic)}
          ⟨.beaconBlock, .sszSnappy, 0⟩).1
        ⟨.beaconBlock, .sszSnappy, 0⟩).1
      ≠ {(⟨.beaconBlock, .sszSnappy, 0⟩ : GossipTopic)} := by
  decide

/-- C2 (amended): for every topic `t` **not already in** the starting
subscription set `S`, `subscribe(t)` followed by `unsubscribe(t)`
returns the subscription set to `S`, whatever the gossipsub layer's
results are. -/
theorem C2_subscribe_unsubscribe_roundtrip (r1 r2 : Except Unit Bool)
    (S : Finset GossipTopic) (t : GossipTopic) (h : t ∉ S) :
    (Network.unsubscribe r2 (Network.subscribe r1 S t).1 t).1 = S := by
  cases r1 <;> cases r2 <;>
    simp [Network.subscribe, Network.unsubscribe, Finset.erase_insert h]

/-- C2 (witness): concrete instance of the amended round trip at
`S = ∅`. -/
theorem C2_witness :
    (Network.unsubscribe (.ok true)
        (Network.subscribe (.ok true) (∅ : Finset GossipTopic)
          ⟨.beaconBlock, .sszSnappy, 0⟩).1
        ⟨.beaconBlock, .sszSnappy, 0⟩).1 = (∅ : Finset GossipTopic) :=
  C2_subscribe_unsubscribe_roundtrip (.ok true) (.ok true) ∅
    ⟨.beaconBlock, .sszSnappy, 0⟩ (by decide)

/-- C3: every RPC event carrying an `Internal` request id
(behaviour-originated ping/metadata traffic) produces no public
`NetworkEvent` from `inject_rpc_event`, whatever the outcome:
successful responses, end-of-stream markers and outbound errors are all
consumed inside the behaviour. -/
theorem C3_internal_ids_never_surface (isConnected : Bool) (md : MetaData)
    (ev : RPCMessage)
    (h : messageRequestId ev.message = some RequestId.internal) :
    (Network.inject_rpc_event isConnected md ev).1 = none := by
  rcases ev with ⟨p, c, msg⟩
  rcases msg with e | r
  · rcases e with ⟨i, pr, er⟩ | ⟨i, pr, er⟩
    · simp [messageRequestId] at h
    · rcases i with i | _
      · simp [messageRequestId] at h
      · cases isConnected <;> rfl
  · rcases r with ⟨req⟩ | ⟨i, resp⟩ | ⟨i, te⟩
    · simp [messageRequestId] at h
    · rcases i with i | _
      · simp [messageRequestId] at h
      · cases isConnected <;> cases resp <;> rfl
    · rcases i with i | _
      · simp [messageRequestId] at h
      · cases isConnected <;> cases te <;> rfl

/-- C3 (witness): a concrete outbound error tagged `Internal` produces
no public event. -/
theorem C3_witness :
    messageRequestId (Except.error
        (HandlerErr.outbound RequestId.internal Protocol.ping RPCError.disconnected))
      = some RequestId.internal
    ∧ (Network.inject_rpc_event true ⟨0, 0, 0⟩
        ⟨1, 0, .error (.outbound .internal .ping .disconnected)⟩).1 = none :=
  ⟨rfl, C3_internal_ids_never_surface true ⟨0, 0, 0⟩
    ⟨1, 0, .error (.outbound .internal .ping .disconnected)⟩ rfl⟩

/-- C4 (counterexample): a `BlocksByRange` request with `step = 0` from
a peer the peer manager does **not** report as Connected is dropped
before the step check: no public event, and the peer manager receives
**zero** (not one) `handle_rpc_error` calls. -/
theorem C4_counterexample :
    Network.inject_rpc_event false ⟨0, 0, 0⟩
        ⟨5, 1, .ok (.request ⟨2, 3, .blocksByRange 0 10 0⟩)⟩ = (none, [])
    ∧ ¬ ((Network.inject_rpc_event false ⟨0, 0, 0⟩
          ⟨5, 1, .ok (.request ⟨2, 3, .blocksByRange 0 10 0⟩)⟩).2.countP
            isInvalidDataRpcErrorEffect = 1) := by
  decide

/-- C4 (amended): for every inbound `BlocksByRange` request with
`step = 0` from a peer the peer manager reports as Connected,
`inject_rpc_event` produces no public event and the peer manager
receives exactly one `handle_rpc_error` call with an `InvalidData`
error on the `BlocksByRange` protocol; from a peer not reported
Connected the event is dropped with no effect at all. -/
theorem C4_blocks_by_range_step_zero (md : MetaData)
    (peer conn rid sub start cnt : Nat) :
    Network.inject_rpc_event true md
        ⟨peer, conn, .ok (.request ⟨rid, sub, .blocksByRange start cnt 0⟩)⟩
      = (none, [.pmHandleRpcError peer .blocksByRange
          (.invalidData "Blocks by range with 0 step parameter") .incoming])
    ∧ Network.inject_rpc_event false md
        ⟨peer, conn, .ok (.request ⟨rid, sub, .blocksByRange start cnt 0⟩)⟩
      = (none, []) :=
  ⟨rfl, rfl⟩

/-- C5: when the gossip layer reports `InsufficientPeers` for every
applicable topic of every message, `Network::publish` emits no public
event and the gossip retry cache (as configured by `Network::new`)
gains exactly one entry per applicable topic whose kind has a
configured TTL, and none for kinds without one. -/
theorem C5_publish_insufficient_peers (sps spe : Nat)
    (entries0 : List (GossipTopic × Nat)) (msgs : List PubsubMessageModel)
    (gs : GossipTopic → PublishOutcome)
    (h : ∀ t, gs t = PublishOutcome.insufficientPeers) :
    (Network.publish gs ⟨network_gossip_cache_builder sps spe, entries0⟩ msgs).2 = []
    ∧ (Network.publish gs ⟨network_gossip_cache_builder sps spe, entries0⟩ msgs).1.entries
      = entries0 ++ msgs.flatMap (fun m =>
          (m.topics.filter (fun t =>
            ((network_gossip_cache_builder sps spe).timeout_for_kind t.kind).isSome)).map
            (fun t => (t, m.payload))) :=
  ⟨rfl, (publish_messages_fold gs h msgs
    ⟨network_gossip_cache_builder sps spe, entries0⟩).2⟩

/-- C5 (witness): publishing one message applicable to a beacon-block
topic and a sync-committee topic into an empty mesh caches exactly the
beacon-block entry (sync-committee kinds have no TTL). -/
theorem C5_witness :
    (Network.publish (fun _ => PublishOutcome.insufficientPeers)
        ⟨network_gossip_cache_builder 12 32, []⟩
        [⟨[⟨.beaconBlock, .sszSnappy, 0⟩, ⟨.syncCommitteeMessage 0, .sszSnappy, 0⟩], 7⟩]).1.entries
      = [(⟨.beaconBlock, .sszSnappy, 0⟩, 7)] := by
  have h := (C5_publish_insufficient_peers 12 32 []
      [⟨[⟨.beaconBlock, .sszSnappy, 0⟩, ⟨.syncCommitteeMessage 0, .sszSnappy, 0⟩], 7⟩]
      (fun _ => PublishOutcome.insufficientPeers) (fun _ => rfl)).2
  rw [h]
  decide

/-- C6: RPC events from a peer the peer manager does not report as
Connected: inbound requests and inbound handler errors are dropped with
no public event and no further processing, while outbound handler
errors are processed exactly as for a connected peer and, when
Application-scoped, surface as `RPCFailed`. -/
theorem C6_disconnected_peer_rpc_events (md : MetaData) (ev : RPCMessage) :
    ((isInboundHandlerErr ev.message = true ∨ isRequestMsg ev.message = true) →
        Network.inject_rpc_event false md ev = (none, []))
    ∧ (∀ id proto err, ev.message = .error (.outbound id proto err) →
        Network.inject_rpc_event false md ev = Network.inject_rpc_event true md ev
        ∧ ∀ i, id = RequestId.application i →
            (Network.inject_rpc_event false md ev).1
              = some (.rpcFailed i ev.peer_id err)) := by
  rcases ev with ⟨p, c, msg⟩
  constructor
  · intro h
    rcases msg with e | r
    · rcases e with ⟨i, pr, er⟩ | ⟨i, pr, er⟩
      · rfl
      · simp [isInboundHandlerErr, isRequestMsg] at h
    · rcases r with ⟨req⟩ | ⟨i, resp⟩ | ⟨i, te⟩
      · rfl
      · simp [isInboundHandlerErr, isRequestMsg] at h
      · simp [isInboundHandlerErr, isRequestMsg] at h
  · intro id proto err hmsg
    subst hmsg
    refine ⟨rfl, ?_⟩
    intro i hid
    subst hid
    rfl

/-- C6 (witness): a concrete Application-scoped outbound error from a
disconnected peer is processed as for a connected one and surfaces as
`RPCFailed`. -/
theorem C6_witness :
    Network.inject_rpc_event false ⟨0, 0, 0⟩
        ⟨4, 0, .error (.outbound (.application 9) .blocksByRange .disconnected)⟩
      = Network.inject_rpc_event true ⟨0, 0, 0⟩
        ⟨4, 0, .error (.outbound (.application 9) .blocksByRange .disconnected)⟩
    ∧ (Network.inject_rpc_event false ⟨0, 0, 0⟩
        ⟨4, 0, .error (.outbound (.application 9) .blocksByRange .disconnected)⟩).1
      = some (.rpcFailed 9 4 .disconnected) := by
  have h := (C6_disconnected_peer_rpc_events ⟨0, 0, 0⟩
      ⟨4, 0, .error (.outbound (.application 9) .blocksByRange .disconnected)⟩).2
      (.application 9) .blocksByRange .disconnected rfl
  exact ⟨h.1, h.2 9 rfl⟩

/-- C7 (counterexample): the voluntary-exit TTL is **not** one epoch in
general: with 1-second slots and 3 slots per epoch the code configures
`2 * (3 / 2) = 2` seconds while one epoch is 3 seconds (the code builds
`half_epoch` by integer division of the epoch length in seconds). -/
theorem C7_counterexample :
    (network_gossip_cache_builder 1 3).timeout_for_kind GossipKind.voluntaryExit
      ≠ spec_gossip_cache_ttl 1 3 GossipKind.voluntaryExit := by
  decide

/-- C7 (amended): the gossip retry cache is constructed with exactly
these per-kind TTLs: beacon-block = 1 slot; aggregates and
attestations = ⌊epoch-seconds / 2⌋ seconds; voluntary-exit,
proposer-slashing, attester-slashing and bls-to-execution-change =
2·⌊epoch-seconds / 2⌋ seconds; and no TTL for sync-committee
contributions, sync-committee messages, or any other kind. These equal
half an epoch resp. one epoch exactly when the epoch length in seconds
is even. -/
theorem C7_gossip_cache_ttls (sps spe : Nat) :
    (∀ k : GossipKind,
      (network_gossip_cache_builder sps spe).timeout_for_kind k =
        match k with
        | .beaconBlock => some (slot_duration_ms sps)
        | .beaconAggregateAndProof => some (half_epoch_ms sps spe)
        | .attestation _ => some (half_epoch_ms sps spe)
        | .voluntaryExit => some (half_epoch_ms sps spe * 2)
        | .proposerSlashing => some (half_epoch_ms sps spe * 2)
        | .attesterSlashing => some (half_epoch_ms sps spe * 2)
        | .blsToExecutionChange => some (half_epoch_ms sps spe * 2)
        | _ => none)
    ∧ (2 ∣ sps * spe →
        ∀ k, (network_gossip_cache_builder sps spe).timeout_for_kind k
          = spec_gossip_cache_ttl sps spe k) := by
  constructor
  · intro k
    cases k <;> rfl
  · intro hdvd k
    obtain ⟨q, hq⟩ := hdvd
    have hassoc : 1000 * sps * spe = 1000 * (sps * spe) := by ring
    cases k <;>
      simp [network_gossip_cache_builder, GossipCacheBuilder.timeout_for_kind,
        spec_gossip_cache_ttl, half_epoch_ms, slot_duration_ms, hassoc, hq] <;>
      omega

/-- C7 (witness): with mainnet parameters (12-second slots, 32 slots
per epoch) the configured TTLs coincide with the spec's table. -/
theorem C7_witness :
    (2 ∣ 12 * 32)
    ∧ (network_gossip_cache_builder 12 32).timeout_for_kind GossipKind.voluntaryExit
      = spec_gossip_cache_ttl 12 32 GossipKind.voluntaryExit :=
  ⟨by decide, (C7_gossip_cache_ttls 12 32).2 (by decide) GossipKind.voluntaryExit⟩

/-- C8: `subscribe(t)` writes the subscription set before calling the
gossip layer, and on a failing gossip-layer call returns `false` while
`t` remains in the set; `unsubscribe(t)` removes `t` from the set even
when the layer call errors. -/
theorem C8_state_mutated_on_error_paths (S : Finset GossipTopic) (t : GossipTopic) :
    ((Network.subscribe (.error ()) S t).1 = insert t S
      ∧ (Network.subscribe (.error ()) S t).2 = false
      ∧ t ∈ (Network.subscribe (.error ()) S t).1)
    ∧ ((Network.unsubscribe (.error ()) S t).1 = S.erase t
      ∧ (Network.unsubscribe (.error ()) S t).2 = false
      ∧ t ∉ (Network.unsubscribe (.error ()) S t).1)
    ∧ subscribeActions.indexOf SubAction.setInsert
        < subscribeActions.indexOf SubAction.gsSubscribe
    ∧ unsubscribeActions.indexOf SubAction.setRemove
        < unsubscribeActions.indexOf SubAction.gsUnsubscribe :=
  ⟨⟨rfl, rfl, Finset.mem_insert_self t S⟩,
   ⟨rfl, rfl, Finset.not_mem_erase t S⟩,
   by decide, by decide⟩

/-- C9: `send_request` on a disconnected peer synchronously returns
`Err((id, Disconnected))` with nothing forwarded to the RPC layer; on a
connected peer it forwards the request tagged
`RequestId::Application(id)` and returns `Ok`. -/
theorem C9_send_request_disconnected (peer rid : Nat) (req : RequestType) :
    Network.send_request false peer rid req
      = .error (rid, RPCError.disconnected)
    ∧ Network.send_request true peer rid req
      = .ok [.rpcSendRequest peer (.application rid) req] :=
  ⟨rfl, rfl⟩

/-- C10: the UDP-filtering of boot-node ENR multiaddrs in
`Network::start` indexes `components[1]` unconditionally, so it panics
(models as `none`) exactly when the multiaddr has fewer than two
protocol components; totality requires at least two components. -/
theorem C10_bootnode_multiaddr_indexing (components : List MProtocol) :
    bootnode_udp_filter components = none ↔ components.length < 2 := by
  match components with
  | [] => simp [bootnode_udp_filter]
  | [a] => simp [bootnode_udp_filter]
  | a :: b :: rest =>
      cases b <;> simp [bootnode_udp_filter]

end LighthouseNetwork
